import Mathlib

/-!
# provider-wavefront-gen: the command `main`

`main.go` registers two string flags, parses the command line, turns the
sentinel default `"<empty>"` of each flag into a nil pointer, builds the
`util.GeneratorOptions` literal, calls `util.Generate` and logs the error it
returns, if any.

Modelling decisions.

* A Go `*string` is an `Option String` (`none` is the nil pointer).
* A Go `error` is an interface value; a nil error is `none`.  A non-nil error
  is modelled by what a call of its `Error()` method does: it returns a
  message, or it panics (for example a nil pointer stored in the interface
  whose method reads through the receiver).
* `util.Generate` and `wavefront.Provider()` live in other modules
  (`kubeform.dev/generator-v2`, `terraform-provider-wavefront`).  They are
  parameters of `main`: nothing is assumed about them.
* `flag.String` and `flag.Parse` are the Go standard library.  Their behaviour
  on the default `CommandLine` flag set (error handling `ExitOnError`) is
  modelled by `Parse` below, on argument strings read as lists of characters.
  The characters the parser looks at (`-` and `=`) are ASCII, so reading the
  arguments as characters or as bytes splits them at the same places.
* `log.Println` appends one line to the log; the time stamp that the standard
  logger puts in front of the line is not modelled.
-/

namespace WavefrontGen

/-! ## The standard library `flag` package, for the two flags of `main`

`flag.Parse()` is `CommandLine.Parse(os.Args[1:])`, a loop that calls
`parseOne` until it reports no further flag; on an error the `ExitOnError`
flag set calls `os.Exit(0)` for `ErrHelp` (Go 1.15 and later) and `os.Exit(2)`
otherwise.  One call of `parseOne` on the arguments `s :: rest`:

* `len(s) < 2 || s[0] != '-'`: no flag, parsing stops, the arguments stay;
* `s == "--"`: parsing stops, `rest` are the positional arguments;
* the name is `s` without its one or two leading `-`; an empty name or a
  name starting with `-` or `=` is the error "bad flag syntax";
* the first `=` at index 1 or later of the name splits it into name and value;
* a name that is not registered is the error "flag provided but not defined",
  or `ErrHelp` when the name is `help` or `h`;
* a string flag without `=value` takes the next argument as its value, and it
  is the error "flag needs an argument" when there is none;
* the value is stored in the flag variable and the flag is entered in `actual`.
-/

/-- Usage string of `-apis-path` (main.go line 29). -/
def apisPathUsage : String :=
  "path to generate the apis. Pass empty string to use default path <$GOPATH/kubeform.dev/provider-wavefront-api"

/-- Usage string of `-controller-path` (main.go line 30). -/
def controllerPathUsage : String :=
  "path to generate the controller. Pass empty string to use default path <$GOPATH/kubeform.dev/provider-wavefront-controller"

/-- The flag set after the two calls of `flag.String` in `main`: the string
variables behind the two returned pointers, and the names of the flags that
have been set (the `actual` map of Go's `FlagSet`). -/
structure FlagSet where
  apisPath : String
  controllerPath : String
  actual : List String
  deriving DecidableEq, Repr

/-- The flag set right after registration: both variables hold the default
value `"<empty>"` that `main` passes to `flag.String`, and no flag is set. -/
def CommandLine : FlagSet :=
  { apisPath := "<empty>", controllerPath := "<empty>", actual := [] }

/-- Records a name in the `actual` map. -/
def markActual (name : String) (actual : List String) : List String :=
  if name ∈ actual then actual else name :: actual

/-- Whether a flag of this name is registered (the `formal` map of Go's
`FlagSet`): `main` registers exactly two. -/
def defined (name : String) : Bool :=
  name = "apis-path" || name = "controller-path"

/-- Stores the value in the variable of the named flag (`flag.Value.Set` of a
string flag never fails) and records the name in `actual`. -/
def FlagSet.assign (fs : FlagSet) (name value : String) : FlagSet :=
  if name = "apis-path" then
    { fs with apisPath := value, actual := markActual name fs.actual }
  else if name = "controller-path" then
    { fs with controllerPath := value, actual := markActual name fs.actual }
  else
    fs

/-- How `parseOne` reads the argument at the head of the command line. -/
inductive Token where
  /-- Shorter than two bytes or not starting with `-`: parsing stops here. -/
  | nonFlag
  /-- The argument `--`: parsing stops after it. -/
  | terminator
  /-- A name that is empty or starts with `-` or `=`: "bad flag syntax". -/
  | badFlag
  /-- A flag name, with the value after the first `=` when there is one. -/
  | flag (name : String) (value : Option String)
  deriving DecidableEq, Repr

/-- Cuts a list of characters at its first `=`. -/
def cutAtEq : List Char → List Char × Option (List Char)
  | [] => ([], none)
  | c :: cs =>
    if c = '=' then ([], some cs)
    else ((c :: (cutAtEq cs).1), (cutAtEq cs).2)

/-- The first half of `parseOne`: one or two leading minus signs, then the
name; the search for `=` starts at the second character of the name. -/
def classify (s : String) : Token :=
  match s.toList with
  | '-' :: c :: cs =>
    if c = '-' then
      match cs with
      | [] => .terminator
      | n :: ns =>
        if n = '-' ∨ n = '=' then .badFlag
        else .flag (String.mk (n :: (cutAtEq ns).1)) ((cutAtEq ns).2.map String.mk)
    else if c = '=' then .badFlag
    else .flag (String.mk (c :: (cutAtEq cs).1)) ((cutAtEq cs).2.map String.mk)
  | _ => .nonFlag

/-- Result of `flag.Parse`. -/
inductive ParseResult where
  /-- All flags parsed; `rest` are the remaining (positional) arguments. -/
  | ok (fs : FlagSet) (rest : List String)
  /-- An undefined `-h` or `-help`: usage is printed and the process exits 0. -/
  | help
  /-- Any other parse error: the process exits with status 2. -/
  | failed
  deriving DecidableEq, Repr

/-- The loop of `FlagSet.Parse` over `parseOne`.  A flag that is not defined
is an error (the usage exit when it is `-h` or `-help`); a string flag
without `=value` takes the next argument, whatever it looks like, as its
value, and it is an error when there is none. -/
def parseFrom (fs : FlagSet) : List String → ParseResult
  | [] => .ok fs []
  | s :: rest =>
    match classify s with
    | .nonFlag => .ok fs (s :: rest)
    | .terminator => .ok fs rest
    | .badFlag => .failed
    | .flag name inlineValue =>
      if defined name then
        match inlineValue, rest with
        | some value, rest => parseFrom (fs.assign name value) rest
        | none, value :: rest1 => parseFrom (fs.assign name value) rest1
        | none, [] => .failed
      else if name = "help" ∨ name = "h" then .help
      else .failed

/-- Models `flag.Parse()` on the command-line arguments `os.Args[1:]`. -/
def Parse (args : List String) : ParseResult :=
  parseFrom CommandLine args

/-- What the parsed command line says about a flag: `none` when the flag was
not set, otherwise the value it was last set to. -/
def FlagSet.input (fs : FlagSet) (name : String) : Option String :=
  if name ∈ fs.actual then
    (if name = "apis-path" then some fs.apisPath
     else if name = "controller-path" then some fs.controllerPath
     else none)
  else none

/-! ## `main` -/

/-- The fields of `util.GeneratorOptions` that `main` fills in; `P` is the
type of the provider data returned by `wavefront.Provider()`. -/
structure GeneratorOptions (P : Type) where
  ProviderName : String
  ProviderNameOriginal : String
  ProviderData : P
  ProviderImportPath : String
  Version : String
  APIsPath : Option String
  ControllerPath : Option String

/-- A non-nil Go `error`: the message its `Error()` method returns, `none`
when the call of `Error()` panics. -/
structure GoError where
  Error : Option String
  deriving DecidableEq, Repr

/-- How the process ends. -/
inductive Termination where
  /-- The function `main` returned. -/
  | returned
  /-- The call `os.Exit(status)` inside `flag.Parse`. -/
  | exited (status : Nat)
  /-- A run-time panic in `main`: a nil pointer dereference, or a panic of
  the `Error()` method called on line 51. -/
  | panicked
  deriving DecidableEq, Repr

/-- Exit status of the process: 0 when `main` returns, 2 after a panic. -/
def Termination.exitStatus : Termination → Nat
  | .returned => 0
  | .exited status => status
  | .panicked => 2

/-- What a run of the command does: the options handed to `util.Generate`
(`none` when the call is not reached), the lines written by `log.Println`, and
how the process ends. -/
structure Outcome (P : Type) where
  generated : Option (GeneratorOptions P)
  log : List String
  termination : Termination

/-- The function `main` of main.go.  `Provider` is the value of
`wavefront.Provider()`, `Generate` is `util.Generate` (it returns its error,
`none` for a nil error) and `args` is `os.Args[1:]`. -/
def main {P : Type} (Provider : P) (Generate : GeneratorOptions P → Option GoError)
    (args : List String) : Outcome P :=
  match Parse args with
  | .help => { generated := none, log := [], termination := .exited 0 }
  | .failed => { generated := none, log := [], termination := .exited 2 }
  | .ok fs _ =>
    -- apisPath := flag.String(...); controllerPath := flag.String(...)
    let apisPath : Option String := some fs.apisPath
    let controllerPath : Option String := some fs.controllerPath
    -- if *apisPath == "<empty>" { apisPath = nil }
    match apisPath with
    | none => { generated := none, log := [], termination := .panicked }
    | some a =>
      let apisPath := if a = "<empty>" then none else apisPath
      -- if *controllerPath == "<empty>" { controllerPath = nil }
      match controllerPath with
      | none => { generated := none, log := [], termination := .panicked }
      | some c =>
        let controllerPath := if c = "<empty>" then none else controllerPath
        let opts : GeneratorOptions P :=
          { ProviderName := "wavefront"
            ProviderNameOriginal := "wavefront"
            ProviderData := Provider
            ProviderImportPath := "github.com/vmware/terraform-provider-wavefront/wavefront"
            Version := "v1alpha1"
            APIsPath := apisPath
            ControllerPath := controllerPath }
        -- err := util.Generate(opts)
        match Generate opts with
        | some err =>
          -- if err != nil { log.Println(err.Error()); return }
          match err.Error with
          | some message =>
            { generated := some opts, log := [message], termination := .returned }
          | none => { generated := some opts, log := [], termination := .panicked }
        | none => { generated := some opts, log := [], termination := .returned }

/-! ## Command lines made of uses of the two flags -/

/-- The two flags of the command. -/
inductive PathFlag where
  | apis
  | controller
  deriving DecidableEq, Repr

/-- The name under which the flag is registered. -/
def PathFlag.name : PathFlag → String
  | .apis => "apis-path"
  | .controller => "controller-path"

/-- The four ways the `flag` package accepts for giving a value to a string
flag: `-name value`, `-name=value`, `--name value`, `--name=value`. -/
inductive Spelling where
  | dash
  | dashEq
  | twoDashes
  | twoDashesEq
  deriving DecidableEq, Repr

/-- One use of a path flag on the command line. -/
structure FlagUse where
  flag : PathFlag
  value : String
  spelling : Spelling
  deriving DecidableEq, Repr

/-- The arguments that one use of a flag puts on the command line. -/
def FlagUse.render : FlagUse → List String
  | ⟨.apis, v, .dash⟩ => ["-apis-path", v]
  | ⟨.apis, v, .dashEq⟩ => ["-apis-path=" ++ v]
  | ⟨.apis, v, .twoDashes⟩ => ["--apis-path", v]
  | ⟨.apis, v, .twoDashesEq⟩ => ["--apis-path=" ++ v]
  | ⟨.controller, v, .dash⟩ => ["-controller-path", v]
  | ⟨.controller, v, .dashEq⟩ => ["-controller-path=" ++ v]
  | ⟨.controller, v, .twoDashes⟩ => ["--controller-path", v]
  | ⟨.controller, v, .twoDashesEq⟩ => ["--controller-path=" ++ v]

/-- The command line `os.Args[1:]` that consists of the given uses, in order. -/
def renderAll : List FlagUse → List String
  | [] => []
  | u :: us => u.render ++ renderAll us

/-- The input a command line gives for a flag: the value of the last use of
that flag, `none` when the flag is not used at all. -/
def inputOf (f : PathFlag) : List FlagUse → Option String
  | [] => none
  | u :: us =>
    match inputOf f us with
    | some v => some v
    | none => if u.flag = f then some u.value else none

/-! ## Predicates used to state the properties -/

/-- A flag that has not been set still holds its default. -/
def FlagSet.DefaultsKept (fs : FlagSet) : Prop :=
  ("apis-path" ∉ fs.actual → fs.apisPath = "<empty>") ∧
  ("controller-path" ∉ fs.actual → fs.controllerPath = "<empty>")

/-- Two parse results that agree on everything `main` reads: the same exit,
or the same values of the two flag variables. -/
def ParseResult.SameValues : ParseResult → ParseResult → Prop
  | .ok fs _, .ok fs1 _ =>
    fs.apisPath = fs1.apisPath ∧ fs.controllerPath = fs1.controllerPath
  | .help, .help => True
  | .failed, .failed => True
  | _, _ => False

/-! ## Properties of the flag parser -/

theorem mem_markActual (name : String) (actual : List String) :
    name ∈ markActual name actual := by
  unfold markActual
  split
  · assumption
  · exact List.mem_cons_self _ _

theorem mem_markActual_of_mem {x name : String} {actual : List String}
    (h : x ∈ actual) : x ∈ markActual name actual := by
  unfold markActual
  split
  · exact h
  · exact List.mem_cons_of_mem _ h

theorem defaultsKept_commandLine : CommandLine.DefaultsKept := by
  simp [FlagSet.DefaultsKept, CommandLine]

theorem defaultsKept_assign (fs : FlagSet) (name value : String)
    (h : fs.DefaultsKept) : (fs.assign name value).DefaultsKept := by
  obtain ⟨ha, hc⟩ := h
  unfold FlagSet.assign
  split
  · next hn =>
    subst hn
    refine ⟨fun hno => absurd (mem_markActual _ _) hno, fun hno => hc ?_⟩
    exact fun hmem => hno (mem_markActual_of_mem hmem)
  · split
    · next hn =>
      subst hn
      refine ⟨fun hno => ha ?_, fun hno => absurd (mem_markActual _ _) hno⟩
      exact fun hmem => hno (mem_markActual_of_mem hmem)
    · exact ⟨ha, hc⟩

theorem defaultsKept_parseFrom_aux (n : Nat) :
    ∀ (args : List String), args.length ≤ n →
      ∀ (fs fs1 : FlagSet) (rest : List String), fs.DefaultsKept →
        parseFrom fs args = .ok fs1 rest → fs1.DefaultsKept := by
  induction n with
  | zero =>
    intro args hlen fs fs1 rest hfs hp
    have hnil : args = [] := List.length_eq_zero.mp (Nat.le_zero.mp hlen)
    subst hnil
    simp [parseFrom] at hp
    rw [← hp.1]; exact hfs
  | succ n ih =>
    intro args hlen fs fs1 rest hfs hp
    cases args with
    | nil =>
      simp [parseFrom] at hp
      rw [← hp.1]; exact hfs
    | cons s tail =>
      have htail : tail.length ≤ n := by simpa using hlen
      rw [parseFrom] at hp
      split at hp
      · simp at hp; rw [← hp.1]; exact hfs
      · simp at hp; rw [← hp.1]; exact hfs
      · simp at hp
      · split at hp
        · split at hp
          · exact ih _ htail _ _ _ (defaultsKept_assign _ _ _ hfs) hp
          · exact ih _ (by simp at htail; omega) _ _ _ (defaultsKept_assign _ _ _ hfs) hp
          · simp at hp
        · split at hp <;> simp at hp

theorem defaultsKept_parseFrom (args : List String) (fs fs1 : FlagSet)
    (rest : List String) (hfs : fs.DefaultsKept)
    (hp : parseFrom fs args = .ok fs1 rest) : fs1.DefaultsKept :=
  defaultsKept_parseFrom_aux args.length args (Nat.le_refl _) fs fs1 rest hfs hp

theorem defaultsKept_Parse {args : List String} {fs : FlagSet} {rest : List String}
    (h : Parse args = .ok fs rest) : fs.DefaultsKept :=
  defaultsKept_parseFrom args _ _ _ defaultsKept_commandLine h

theorem sameValues_parseFrom_aux (n : Nat) :
    ∀ (args : List String), args.length ≤ n →
      ∀ (fs fs1 : FlagSet), fs.apisPath = fs1.apisPath →
        fs.controllerPath = fs1.controllerPath →
        (parseFrom fs args).SameValues (parseFrom fs1 args) := by
  have hassign : ∀ (fs fs1 : FlagSet) (name value : String),
      fs.apisPath = fs1.apisPath → fs.controllerPath = fs1.controllerPath →
      (fs.assign name value).apisPath = (fs1.assign name value).apisPath ∧
      (fs.assign name value).controllerPath = (fs1.assign name value).controllerPath := by
    intro fs fs1 name value ha hc
    unfold FlagSet.assign
    split
    · exact ⟨rfl, hc⟩
    · split
      · exact ⟨ha, rfl⟩
      · exact ⟨ha, hc⟩
  induction n with
  | zero =>
    intro args hlen fs fs1 ha hc
    have hnil : args = [] := List.length_eq_zero.mp (Nat.le_zero.mp hlen)
    subst hnil
    simp [parseFrom, ParseResult.SameValues, ha, hc]
  | succ n ih =>
    intro args hlen fs fs1 ha hc
    cases args with
    | nil => simp [parseFrom, ParseResult.SameValues, ha, hc]
    | cons s tail =>
      have htail : tail.length ≤ n := by simpa using hlen
      rw [parseFrom, parseFrom]
      split
      · simp [ParseResult.SameValues, ha, hc]
      · simp [ParseResult.SameValues, ha, hc]
      · simp [ParseResult.SameValues]
      · split
        · split
          · exact ih _ htail _ _ (hassign _ _ _ _ ha hc).1 (hassign _ _ _ _ ha hc).2
          · exact ih _ (by simp at htail; omega) _ _
              (hassign _ _ _ _ ha hc).1 (hassign _ _ _ _ ha hc).2
          · simp [ParseResult.SameValues]
        · split <;> simp [ParseResult.SameValues]

theorem sameValues_parseFrom (args : List String) (fs fs1 : FlagSet)
    (ha : fs.apisPath = fs1.apisPath) (hc : fs.controllerPath = fs1.controllerPath) :
    (parseFrom fs args).SameValues (parseFrom fs1 args) :=
  sameValues_parseFrom_aux args.length args (Nat.le_refl _) fs fs1 ha hc

/-- One step of the parser on `-apis-path value`. -/
theorem parseFrom_apis_sep (fs : FlagSet) (value : String) (tail : List String) :
    parseFrom fs ("-apis-path" :: value :: tail)
      = parseFrom (fs.assign "apis-path" value) tail := by
  have hc : classify "-apis-path" = .flag "apis-path" none := by rfl
  rw [parseFrom, hc]
  simp [defined]

/-- One step of the parser on `-controller-path value`. -/
theorem parseFrom_controller_sep (fs : FlagSet) (value : String) (tail : List String) :
    parseFrom fs ("-controller-path" :: value :: tail)
      = parseFrom (fs.assign "controller-path" value) tail := by
  have hc : classify "-controller-path" = .flag "controller-path" none := by rfl
  rw [parseFrom, hc]
  simp [defined]

theorem classify_apis_eq (value : String) :
    classify ("-apis-path=" ++ value) = .flag "apis-path" (some value) := by
  have hl : ("-apis-path=" ++ value).toList
      = '-' :: 'a' :: 'p' :: 'i' :: 's' :: '-' :: 'p' :: 'a' :: 't' :: 'h' :: '=' ::
          value.toList := by
    simp [String.toList]
  simp [classify, hl, cutAtEq]

theorem classify_controller_eq (value : String) :
    classify ("-controller-path=" ++ value) = .flag "controller-path" (some value) := by
  have hl : ("-controller-path=" ++ value).toList
      = '-' :: 'c' :: 'o' :: 'n' :: 't' :: 'r' :: 'o' :: 'l' :: 'l' :: 'e' :: 'r' ::
          '-' :: 'p' :: 'a' :: 't' :: 'h' :: '=' :: value.toList := by
    simp [String.toList]
  simp [classify, hl, cutAtEq]

/-- One step of the parser on `-apis-path=value`. -/
theorem parseFrom_apis_eq (fs : FlagSet) (value : String) (tail : List String) :
    parseFrom fs (("-apis-path=" ++ value) :: tail)
      = parseFrom (fs.assign "apis-path" value) tail := by
  rw [parseFrom, classify_apis_eq]
  simp [defined]

/-- One step of the parser on `-controller-path=value`. -/
theorem parseFrom_controller_eq (fs : FlagSet) (value : String) (tail : List String) :
    parseFrom fs (("-controller-path=" ++ value) :: tail)
      = parseFrom (fs.assign "controller-path" value) tail := by
  rw [parseFrom, classify_controller_eq]
  simp [defined]

theorem classify_apis_eq2 (value : String) :
    classify ("--apis-path=" ++ value) = .flag "apis-path" (some value) := by
  have hl : ("--apis-path=" ++ value).toList
      = '-' :: '-' :: 'a' :: 'p' :: 'i' :: 's' :: '-' :: 'p' :: 'a' :: 't' :: 'h' ::
          '=' :: value.toList := by
    simp [String.toList]
  simp [classify, hl, cutAtEq]

theorem classify_controller_eq2 (value : String) :
    classify ("--controller-path=" ++ value) = .flag "controller-path" (some value) := by
  have hl : ("--controller-path=" ++ value).toList
      = '-' :: '-' :: 'c' :: 'o' :: 'n' :: 't' :: 'r' :: 'o' :: 'l' :: 'l' :: 'e' ::
          'r' :: '-' :: 'p' :: 'a' :: 't' :: 'h' :: '=' :: value.toList := by
    simp [String.toList]
  simp [classify, hl, cutAtEq]

/-- Setting the flag `-apis-path` writes the variable of that flag and leaves
the variable of `-controller-path` alone, and the other way round. -/
theorem assign_writes_own_variable (fs : FlagSet) (value : String) :
    (fs.assign "apis-path" value).apisPath = value ∧
    (fs.assign "apis-path" value).controllerPath = fs.controllerPath ∧
    (fs.assign "controller-path" value).controllerPath = value ∧
    (fs.assign "controller-path" value).apisPath = fs.apisPath := by
  simp [FlagSet.assign]

/-- One step of the parser on one use of a flag, in any of its spellings. -/
theorem parseFrom_render (fs : FlagSet) (u : FlagUse) (tail : List String) :
    parseFrom fs (u.render ++ tail) = parseFrom (fs.assign u.flag.name u.value) tail := by
  obtain ⟨f, v, sp⟩ := u
  cases f <;> cases sp
  · exact parseFrom_apis_sep fs v tail
  · exact parseFrom_apis_eq fs v tail
  · have hc : classify "--apis-path" = .flag "apis-path" none := by rfl
    simp only [FlagUse.render, PathFlag.name, List.cons_append, List.nil_append]
    rw [parseFrom, hc]
    simp [defined]
  · simp only [FlagUse.render, PathFlag.name, List.cons_append, List.nil_append]
    rw [parseFrom, classify_apis_eq2]
    simp [defined]
  · exact parseFrom_controller_sep fs v tail
  · exact parseFrom_controller_eq fs v tail
  · have hc : classify "--controller-path" = .flag "controller-path" none := by rfl
    simp only [FlagUse.render, PathFlag.name, List.cons_append, List.nil_append]
    rw [parseFrom, hc]
    simp [defined]
  · simp only [FlagUse.render, PathFlag.name, List.cons_append, List.nil_append]
    rw [parseFrom, classify_controller_eq2]
    simp [defined]

/-- A command line made of uses of the two flags parses, with no argument
left over, to the flag set in which the uses have been assigned in order. -/
theorem parseFrom_renderAll (us : List FlagUse) :
    ∀ fs : FlagSet, parseFrom fs (renderAll us)
      = .ok (us.foldl (fun acc u => acc.assign u.flag.name u.value) fs) [] := by
  induction us with
  | nil => intro fs; simp [renderAll, parseFrom]
  | cons u us ih =>
    intro fs
    rw [renderAll, parseFrom_render, ih, List.foldl_cons]

/-- After the uses have been assigned, the variable of `-controller-path`
holds the last value used for that flag, or what it held before when the flag
is not used: the uses of `-apis-path` have no part in it. -/
theorem controllerPath_foldl_assign (us : List FlagUse) :
    ∀ fs : FlagSet,
      (us.foldl (fun acc u => acc.assign u.flag.name u.value) fs).controllerPath
        = (inputOf .controller us).getD fs.controllerPath := by
  induction us with
  | nil => intro fs; simp [inputOf]
  | cons u us ih =>
    intro fs
    rw [List.foldl_cons, ih, inputOf]
    cases hrest : inputOf .controller us with
    | some v => simp
    | none =>
      obtain ⟨f, v, sp⟩ := u
      cases f
      · simp [PathFlag.name, (assign_writes_own_variable fs v).2.1]
      · simp [PathFlag.name, (assign_writes_own_variable fs v).2.2.1]

/-- After the uses have been assigned, the variable of `-apis-path` holds the
last value used for that flag, or what it held before when the flag is not
used: the uses of `-controller-path` have no part in it. -/
theorem apisPath_foldl_assign (us : List FlagUse) :
    ∀ fs : FlagSet,
      (us.foldl (fun acc u => acc.assign u.flag.name u.value) fs).apisPath
        = (inputOf .apis us).getD fs.apisPath := by
  induction us with
  | nil => intro fs; simp [inputOf]
  | cons u us ih =>
    intro fs
    rw [List.foldl_cons, ih, inputOf]
    cases hrest : inputOf .apis us with
    | some v => simp
    | none =>
      obtain ⟨f, v, sp⟩ := u
      cases f
      · simp [PathFlag.name, (assign_writes_own_variable fs v).1]
      · simp [PathFlag.name, (assign_writes_own_variable fs v).2.2.2]

/-- The command line `-apis-path a -controller-path c` sets both variables to
exactly the strings given. -/
theorem Parse_both_flags (a c : String) :
    Parse ["-apis-path", a, "-controller-path", c]
      = .ok { apisPath := a, controllerPath := c,
              actual := ["controller-path", "apis-path"] } [] := by
  rw [Parse, parseFrom_apis_sep, parseFrom_controller_sep]
  simp [parseFrom, FlagSet.assign, CommandLine, markActual]

/-! ## Properties of `main` -/

/-- When the flags parse, `main` reaches `util.Generate` with the options
literal of the source, logs what `Generate` returns and returns. -/
theorem main_of_parse_ok {P : Type} (Provider : P)
    (Generate : GeneratorOptions P → Option GoError)
    {args : List String} {fs : FlagSet} {rest : List String}
    (h : Parse args = .ok fs rest) :
    ∃ opts : GeneratorOptions P,
      (main Provider Generate args).generated = some opts ∧
      opts.ProviderName = "wavefront" ∧
      opts.ProviderNameOriginal = "wavefront" ∧
      opts.ProviderData = Provider ∧
      opts.ProviderImportPath = "github.com/vmware/terraform-provider-wavefront/wavefront" ∧
      opts.Version = "v1alpha1" ∧
      opts.APIsPath = (if fs.apisPath = "<empty>" then none else some fs.apisPath) ∧
      opts.ControllerPath
        = (if fs.controllerPath = "<empty>" then none else some fs.controllerPath) ∧
      (main Provider Generate args).termination
        = (match Generate opts with
           | some err => (match err.Error with
                          | some _ => Termination.returned
                          | none => Termination.panicked)
           | none => Termination.returned) ∧
      (main Provider Generate args).log
        = (match Generate opts with
           | some err => (match err.Error with
                          | some message => [message]
                          | none => [])
           | none => []) := by
  simp only [main, h]
  split
  · rename_i err hg
    split <;> rename_i hm <;> simp [hg, hm]
  · rename_i hg
    simp [hg]

/-- The call of `util.Generate` is reached only when the flags parse. -/
theorem parse_ok_of_generated {P : Type} (Provider : P)
    (Generate : GeneratorOptions P → Option GoError)
    {args : List String} {opts : GeneratorOptions P}
    (h : (main Provider Generate args).generated = some opts) :
    ∃ fs rest, Parse args = .ok fs rest := by
  cases hp : Parse args with
  | ok fs rest => exact ⟨fs, rest, rfl⟩
  | help => simp [main, hp] at h
  | failed => simp [main, hp] at h

/-- The outcome of `main` depends on the command line only through the exit of
the parser or the values of the two flag variables. -/
theorem main_eq_of_sameValues {P : Type} (Provider : P)
    (Generate : GeneratorOptions P → Option GoError)
    {args args1 : List String}
    (h : (Parse args).SameValues (Parse args1)) :
    main Provider Generate args = main Provider Generate args1 := by
  cases hp : Parse args with
  | ok fs rest =>
    cases hp1 : Parse args1 with
    | ok fs1 rest1 =>
      rw [hp, hp1] at h
      obtain ⟨ha, hc⟩ := h
      simp only [main, hp, hp1, ha, hc]
    | help => rw [hp, hp1] at h; exact absurd h (by simp [ParseResult.SameValues])
    | failed => rw [hp, hp1] at h; exact absurd h (by simp [ParseResult.SameValues])
  | help =>
    cases hp1 : Parse args1 with
    | ok fs1 rest1 => rw [hp, hp1] at h; exact absurd h (by simp [ParseResult.SameValues])
    | help => simp only [main, hp, hp1]
    | failed => rw [hp, hp1] at h; exact absurd h (by simp [ParseResult.SameValues])
  | failed =>
    cases hp1 : Parse args1 with
    | ok fs1 rest1 => rw [hp, hp1] at h; exact absurd h (by simp [ParseResult.SameValues])
    | help => rw [hp, hp1] at h; exact absurd h (by simp [ParseResult.SameValues])
    | failed => simp only [main, hp, hp1]

/-- On a command line made of uses of the two flags, `main` reaches
`util.Generate`, and each path option is computed from the input the command
line gives for its own flag. -/
theorem main_renderAll {P : Type} (Provider : P)
    (Generate : GeneratorOptions P → Option GoError) (us : List FlagUse) :
    ∃ opts : GeneratorOptions P,
      (main Provider Generate (renderAll us)).generated = some opts ∧
      opts.APIsPath
        = (if (inputOf .apis us).getD "<empty>" = "<empty>" then none
           else some ((inputOf .apis us).getD "<empty>")) ∧
      opts.ControllerPath
        = (if (inputOf .controller us).getD "<empty>" = "<empty>" then none
           else some ((inputOf .controller us).getD "<empty>")) := by
  have hp : Parse (renderAll us)
      = .ok (us.foldl (fun acc u => acc.assign u.flag.name u.value) CommandLine) [] :=
    parseFrom_renderAll us CommandLine
  obtain ⟨opts, hgen, -, -, -, -, -, hapis, hctrl, -, -⟩ :=
    main_of_parse_ok Provider Generate hp
  refine ⟨opts, hgen, ?_, ?_⟩
  · rw [hapis, apisPath_foldl_assign]; rfl
  · rw [hctrl, controllerPath_foldl_assign]; rfl

/-! ## The claims -/

/-- C1 (the claim as stated fails): `util.Generate` can return a non-nil
error whose `Error()` method panics; on the empty command line the flags
parse, `Generate` is called and returns that error, and `main` panics at
`err.Error()` on line 51: nothing is logged, the run does not return and the
exit status is 2, not zero. -/
theorem generate_error_with_panicking_message_panics :
    Parse [] = .ok CommandLine [] ∧
    (main () (fun _ => some { Error := none }) []).generated
      = some { ProviderName := "wavefront", ProviderNameOriginal := "wavefront",
               ProviderData := (),
               ProviderImportPath := "github.com/vmware/terraform-provider-wavefront/wavefront",
               Version := "v1alpha1", APIsPath := none, ControllerPath := none } ∧
    (main () (fun _ => some { Error := none }) []).log = [] ∧
    (main () (fun _ => some { Error := none }) []).termination = .panicked ∧
    (main () (fun _ => some { Error := none }) []).termination ≠ .returned ∧
    (main () (fun _ => some { Error := none }) []).termination.exitStatus = 2 ∧
    (main () (fun _ => some { Error := none }) []).termination.exitStatus ≠ 0 := by
  refine ⟨rfl, rfl, rfl, rfl, ?_, rfl, ?_⟩
  · decide
  · decide

/-- C1 (amended): when the flags have parsed and `util.Generate`, called with
the options `main` built, returns an error whose `Error()` method returns a
message, `main` writes exactly that message to the log and returns normally:
no panic, exit status zero. -/
theorem main_logs_generate_error_and_exits_zero {P : Type} (Provider : P)
    (Generate : GeneratorOptions P → Option GoError) (args : List String)
    (fs : FlagSet) (rest : List String) (opts : GeneratorOptions P) (err : GoError)
    (message : String)
    (hparse : Parse args = .ok fs rest)
    (hcall : (main Provider Generate args).generated = some opts)
    (herr : Generate opts = some err)
    (hmessage : err.Error = some message) :
    (main Provider Generate args).log = [message] ∧
    (main Provider Generate args).termination = .returned ∧
    (main Provider Generate args).termination ≠ .panicked ∧
    (main Provider Generate args).termination.exitStatus = 0 := by
  obtain ⟨opts1, hgen, -, -, -, -, -, -, -, hterm, hlog⟩ :=
    main_of_parse_ok Provider Generate hparse
  have hopts : opts1 = opts := Option.some.inj (hgen.symm.trans hcall)
  subst hopts
  have hret : (main Provider Generate args).termination = .returned := by
    rw [hterm, herr]; simp only [hmessage]
  refine ⟨?_, hret, ?_, ?_⟩
  · rw [hlog, herr]; simp only [hmessage]
  · rw [hret]; decide
  · rw [hret]; rfl

theorem main_logs_generate_error_and_exits_zero_witness :
    Parse ["-apis-path", "out"]
      = .ok { apisPath := "out", controllerPath := "<empty>", actual := ["apis-path"] } [] ∧
    (main () (fun _ => some { Error := some "schema load failed" })
        ["-apis-path", "out"]).generated
      = some { ProviderName := "wavefront", ProviderNameOriginal := "wavefront",
               ProviderData := (),
               ProviderImportPath := "github.com/vmware/terraform-provider-wavefront/wavefront",
               Version := "v1alpha1", APIsPath := some "out", ControllerPath := none } ∧
    ((main () (fun _ => some { Error := some "schema load failed" })
        ["-apis-path", "out"]).log = ["schema load failed"] ∧
     (main () (fun _ => some { Error := some "schema load failed" })
        ["-apis-path", "out"]).termination = .returned ∧
     (main () (fun _ => some { Error := some "schema load failed" })
        ["-apis-path", "out"]).termination ≠ .panicked ∧
     (main () (fun _ => some { Error := some "schema load failed" })
        ["-apis-path", "out"]).termination.exitStatus = 0) :=
  ⟨rfl, rfl,
    main_logs_generate_error_and_exits_zero ()
      (fun _ => some { Error := some "schema load failed" }) ["-apis-path", "out"]
      _ [] _ { Error := some "schema load failed" } "schema load failed" rfl rfl rfl rfl⟩

/-- C2: a path flag that is omitted leaves its option nil.  Without
`-apis-path` the options handed to `util.Generate` have `APIsPath = nil`, for
every value `c` of `-controller-path` and also when both flags are omitted;
without `-controller-path` they have `ControllerPath = nil`, for every value
`a` of `-apis-path`; and in general, on any command line that parses, a flag
that the parser did not set leaves its option nil. -/
theorem omitted_flag_gives_nil_path {P : Type} (Provider : P)
    (Generate : GeneratorOptions P → Option GoError) :
    (∃ opts, (main Provider Generate []).generated = some opts ∧
      opts.APIsPath = none ∧ opts.ControllerPath = none) ∧
    (∀ c : String, ∃ opts,
      (main Provider Generate ["-controller-path", c]).generated = some opts ∧
        opts.APIsPath = none) ∧
    (∀ a : String, ∃ opts,
      (main Provider Generate ["-apis-path", a]).generated = some opts ∧
        opts.ControllerPath = none) ∧
    (∀ (args : List String) (fs : FlagSet) (rest : List String),
      Parse args = .ok fs rest →
        (fs.input "apis-path" = none →
          ∃ opts, (main Provider Generate args).generated = some opts ∧
            opts.APIsPath = none) ∧
        (fs.input "controller-path" = none →
          ∃ opts, (main Provider Generate args).generated = some opts ∧
            opts.ControllerPath = none)) := by
  have general : ∀ (args : List String) (fs : FlagSet) (rest : List String),
      Parse args = .ok fs rest →
        (fs.input "apis-path" = none →
          ∃ opts, (main Provider Generate args).generated = some opts ∧
            opts.APIsPath = none) ∧
        (fs.input "controller-path" = none →
          ∃ opts, (main Provider Generate args).generated = some opts ∧
            opts.ControllerPath = none) := by
    intro args fs rest hparse
    obtain ⟨opts, hgen, -, -, -, -, -, hapis, hctrl, -, -⟩ :=
      main_of_parse_ok Provider Generate hparse
    obtain ⟨hka, hkc⟩ := defaultsKept_Parse hparse
    constructor
    · intro hin
      refine ⟨opts, hgen, ?_⟩
      have hno : "apis-path" ∉ fs.actual := by
        intro hmem
        simp [FlagSet.input, hmem] at hin
      rw [hapis, hka hno]; rfl
    · intro hin
      refine ⟨opts, hgen, ?_⟩
      have hno : "controller-path" ∉ fs.actual := by
        intro hmem
        simp [FlagSet.input, hmem] at hin
      rw [hctrl, hkc hno]; rfl
  refine ⟨?_, ?_, ?_, general⟩
  · have hp : Parse [] = .ok CommandLine [] := rfl
    obtain ⟨opts, hgen, -, -, -, -, -, hapis, hctrl, -, -⟩ :=
      main_of_parse_ok Provider Generate hp
    exact ⟨opts, hgen, by rw [hapis]; rfl, by rw [hctrl]; rfl⟩
  · intro c
    have hp : Parse ["-controller-path", c]
        = .ok { apisPath := "<empty>", controllerPath := c,
                actual := ["controller-path"] } [] := by
      rw [Parse, parseFrom_controller_sep]; rfl
    exact (general _ _ _ hp).1 rfl
  · intro a
    have hp : Parse ["-apis-path", a]
        = .ok { apisPath := a, controllerPath := "<empty>",
                actual := ["apis-path"] } [] := by
      rw [Parse, parseFrom_apis_sep]; rfl
    exact (general _ _ _ hp).2 rfl

theorem omitted_flag_gives_nil_path_witness :
    Parse ["positional"] = .ok CommandLine ["positional"] ∧
    CommandLine.input "apis-path" = none ∧
    CommandLine.input "controller-path" = none ∧
    (∃ opts, (main () (fun _ => none) ["positional"]).generated = some opts ∧
      opts.APIsPath = none) ∧
    (∃ opts, (main () (fun _ => none) ["positional"]).generated = some opts ∧
      opts.ControllerPath = none) :=
  ⟨rfl, rfl, rfl,
    ((omitted_flag_gives_nil_path () (fun _ => none)).2.2.2 ["positional"] CommandLine
      ["positional"] rfl).1 rfl,
    ((omitted_flag_gives_nil_path () (fun _ => none)).2.2.2 ["positional"] CommandLine
      ["positional"] rfl).2 rfl⟩

/-- C3 (the code at the failing input): with the empty string as the value of
a path flag, `main` hands `util.Generate` a non-nil pointer to the empty
string, which is not what it hands over when the flag is omitted (nil),
although the usage string of the flag says "Pass empty string to use default
path". -/
theorem empty_string_path_is_not_nil {P : Type} (Provider : P)
    (Generate : GeneratorOptions P → Option GoError) :
    (∃ given omitted,
      (main Provider Generate ["-apis-path", ""]).generated = some given ∧
      (main Provider Generate []).generated = some omitted ∧
      given.APIsPath = some "" ∧ omitted.APIsPath = none) ∧
    (∃ given omitted,
      (main Provider Generate ["-controller-path", ""]).generated = some given ∧
      (main Provider Generate []).generated = some omitted ∧
      given.ControllerPath = some "" ∧ omitted.ControllerPath = none) := by
  have h0 : Parse [] = .ok CommandLine [] := rfl
  have ha : Parse ["-apis-path", ""]
      = .ok { apisPath := "", controllerPath := "<empty>", actual := ["apis-path"] } [] := rfl
  have hc : Parse ["-controller-path", ""]
      = .ok { apisPath := "<empty>", controllerPath := "", actual := ["controller-path"] } [] :=
    rfl
  obtain ⟨o0, hg0, -, -, -, -, -, hapis0, hctrl0, -, -⟩ :=
    main_of_parse_ok Provider Generate h0
  obtain ⟨oa, hga, -, -, -, -, -, hapisa, -, -, -⟩ :=
    main_of_parse_ok Provider Generate ha
  obtain ⟨oc, hgc, -, -, -, -, -, -, hctrlc, -, -⟩ :=
    main_of_parse_ok Provider Generate hc
  exact ⟨⟨oa, o0, hga, hg0, by rw [hapisa]; rfl, by rw [hapis0]; rfl⟩,
    ⟨oc, o0, hgc, hg0, by rw [hctrlc]; rfl, by rw [hctrl0]; rfl⟩⟩

/-- C4: for every string `v` other than `"<empty>"`, running with
`-apis-path v` hands `util.Generate` an `APIsPath` that is non-nil and points
to exactly `v`, and running with `-controller-path v` a `ControllerPath` that
points to exactly `v` (also written `-apis-path=v`, and with the other flag
given as well); in general, on any command line that parses and on which the
flag was last set to `v`, the option points to exactly `v`. -/
theorem given_path_is_forwarded_verbatim {P : Type} (Provider : P)
    (Generate : GeneratorOptions P → Option GoError) (v : String)
    (hv : v ≠ "<empty>") :
    (∃ opts, (main Provider Generate ["-apis-path", v]).generated = some opts ∧
      opts.APIsPath = some v) ∧
    (∃ opts, (main Provider Generate ["-controller-path", v]).generated = some opts ∧
      opts.ControllerPath = some v) ∧
    (∃ opts, (main Provider Generate ["-apis-path=" ++ v]).generated = some opts ∧
      opts.APIsPath = some v) ∧
    (∃ opts, (main Provider Generate ["-controller-path=" ++ v]).generated = some opts ∧
      opts.ControllerPath = some v) ∧
    (∀ c : String, ∃ opts,
      (main Provider Generate ["-apis-path", v, "-controller-path", c]).generated
        = some opts ∧ opts.APIsPath = some v) ∧
    (∀ a : String, ∃ opts,
      (main Provider Generate ["-apis-path", a, "-controller-path", v]).generated
        = some opts ∧ opts.ControllerPath = some v) ∧
    (∀ (args : List String) (fs : FlagSet) (rest : List String),
      Parse args = .ok fs rest →
        (fs.input "apis-path" = some v →
          ∃ opts, (main Provider Generate args).generated = some opts ∧
            opts.APIsPath = some v) ∧
        (fs.input "controller-path" = some v →
          ∃ opts, (main Provider Generate args).generated = some opts ∧
            opts.ControllerPath = some v)) := by
  have general : ∀ (args : List String) (fs : FlagSet) (rest : List String),
      Parse args = .ok fs rest →
        (fs.input "apis-path" = some v →
          ∃ opts, (main Provider Generate args).generated = some opts ∧
            opts.APIsPath = some v) ∧
        (fs.input "controller-path" = some v →
          ∃ opts, (main Provider Generate args).generated = some opts ∧
            opts.ControllerPath = some v) := by
    intro args fs rest hparse
    obtain ⟨opts, hgen, -, -, -, -, -, hapis, hctrl, -, -⟩ :=
      main_of_parse_ok Provider Generate hparse
    constructor
    · intro hin
      refine ⟨opts, hgen, ?_⟩
      have hval : fs.apisPath = v := by
        unfold FlagSet.input at hin
        split at hin
        · simpa using hin
        · simp at hin
      rw [hapis, hval, if_neg hv]
    · intro hin
      refine ⟨opts, hgen, ?_⟩
      have hval : fs.controllerPath = v := by
        unfold FlagSet.input at hin
        split at hin
        · simpa using hin
        · simp at hin
      rw [hctrl, hval, if_neg hv]
  refine ⟨?_, ?_, ?_, ?_, ?_, ?_, general⟩
  · have hp : Parse ["-apis-path", v]
        = .ok { apisPath := v, controllerPath := "<empty>",
                actual := ["apis-path"] } [] := by
      rw [Parse, parseFrom_apis_sep]; rfl
    exact (general _ _ _ hp).1 rfl
  · have hp : Parse ["-controller-path", v]
        = .ok { apisPath := "<empty>", controllerPath := v,
                actual := ["controller-path"] } [] := by
      rw [Parse, parseFrom_controller_sep]; rfl
    exact (general _ _ _ hp).2 rfl
  · have hp : Parse ["-apis-path=" ++ v]
        = .ok { apisPath := v, controllerPath := "<empty>",
                actual := ["apis-path"] } [] := by
      rw [Parse, parseFrom_apis_eq]; rfl
    exact (general _ _ _ hp).1 rfl
  · have hp : Parse ["-controller-path=" ++ v]
        = .ok { apisPath := "<empty>", controllerPath := v,
                actual := ["controller-path"] } [] := by
      rw [Parse, parseFrom_controller_eq]; rfl
    exact (general _ _ _ hp).2 rfl
  · intro c
    exact (general _ _ _ (Parse_both_flags v c)).1 rfl
  · intro a
    exact (general _ _ _ (Parse_both_flags a v)).2 rfl

theorem given_path_is_forwarded_verbatim_witness :
    "out dir/" ≠ "<empty>" ∧
    (∃ opts, (main () (fun _ => none) ["-apis-path", "out dir/"]).generated = some opts ∧
      opts.APIsPath = some "out dir/") ∧
    Parse ["--apis-path", "out dir/", "--controller-path=out dir/", "x"]
      = .ok { apisPath := "out dir/", controllerPath := "out dir/",
              actual := ["controller-path", "apis-path"] } ["x"] ∧
    (∃ opts, (main () (fun _ => none)
        ["--apis-path", "out dir/", "--controller-path=out dir/", "x"]).generated
          = some opts ∧
      opts.APIsPath = some "out dir/") ∧
    (∃ opts, (main () (fun _ => none)
        ["--apis-path", "out dir/", "--controller-path=out dir/", "x"]).generated
          = some opts ∧
      opts.ControllerPath = some "out dir/") :=
  ⟨by decide,
    (given_path_is_forwarded_verbatim () (fun _ => none) "out dir/" (by decide)).1,
    rfl,
    ((given_path_is_forwarded_verbatim () (fun _ => none) "out dir/"
      (by decide)).2.2.2.2.2.2
      ["--apis-path", "out dir/", "--controller-path=out dir/", "x"] _ ["x"] rfl).1 rfl,
    ((given_path_is_forwarded_verbatim () (fun _ => none) "out dir/"
      (by decide)).2.2.2.2.2.2
      ["--apis-path", "out dir/", "--controller-path=out dir/", "x"] _ ["x"] rfl).2 rfl⟩

/-- C5: whatever the command line, the options handed to `util.Generate` have
`ProviderName = "wavefront"`, `ProviderNameOriginal = "wavefront"`,
`Version = "v1alpha1"` and
`ProviderImportPath = "github.com/vmware/terraform-provider-wavefront/wavefront"`. -/
theorem provider_identity_is_constant {P : Type} (Provider : P)
    (Generate : GeneratorOptions P → Option GoError) (args : List String)
    (opts : GeneratorOptions P)
    (hcall : (main Provider Generate args).generated = some opts) :
    opts.ProviderName = "wavefront" ∧
    opts.ProviderNameOriginal = "wavefront" ∧
    opts.Version = "v1alpha1" ∧
    opts.ProviderImportPath
      = "github.com/vmware/terraform-provider-wavefront/wavefront" := by
  obtain ⟨fs, rest, hparse⟩ := parse_ok_of_generated Provider Generate hcall
  obtain ⟨opts1, hgen, hname, horig, -, himp, hver, -, -, -, -⟩ :=
    main_of_parse_ok Provider Generate hparse
  have hopts : opts1 = opts := Option.some.inj (hgen.symm.trans hcall)
  subst hopts
  exact ⟨hname, horig, hver, himp⟩

theorem provider_identity_is_constant_witness :
    (main () (fun _ => none) ["-apis-path=v2", "-controller-path", "wavefront2"]).generated
      = some { ProviderName := "wavefront", ProviderNameOriginal := "wavefront",
               ProviderData := (),
               ProviderImportPath := "github.com/vmware/terraform-provider-wavefront/wavefront",
               Version := "v1alpha1", APIsPath := some "v2",
               ControllerPath := some "wavefront2" } ∧
    ("wavefront" = "wavefront" ∧ "wavefront" = "wavefront" ∧ "v1alpha1" = "v1alpha1" ∧
      "github.com/vmware/terraform-provider-wavefront/wavefront"
        = "github.com/vmware/terraform-provider-wavefront/wavefront") :=
  ⟨rfl,
    provider_identity_is_constant () (fun _ => none)
      ["-apis-path=v2", "-controller-path", "wavefront2"] _ rfl⟩

/-- C8: the string `"<empty>"` never reaches the generator as a path: on every
command line, each of `APIsPath` and `ControllerPath` handed to
`util.Generate` is nil or points to a string other than `"<empty>"`; and a
command line that starts with `-apis-path "<empty>"` (or
`-controller-path "<empty>"`) runs exactly as the same command line without
it, which for the flag alone means `APIsPath = nil`. -/
theorem sentinel_never_reaches_generate {P : Type} (Provider : P)
    (Generate : GeneratorOptions P → Option GoError) :
    (∀ (args : List String) (opts : GeneratorOptions P),
      (main Provider Generate args).generated = some opts →
        (opts.APIsPath = none ∨ ∃ s, opts.APIsPath = some s ∧ s ≠ "<empty>") ∧
        (opts.ControllerPath = none ∨
          ∃ s, opts.ControllerPath = some s ∧ s ≠ "<empty>")) ∧
    (∀ tail : List String,
      main Provider Generate ("-apis-path" :: "<empty>" :: tail)
        = main Provider Generate tail) ∧
    (∀ tail : List String,
      main Provider Generate ("-controller-path" :: "<empty>" :: tail)
        = main Provider Generate tail) ∧
    (∃ opts, (main Provider Generate ["-apis-path", "<empty>"]).generated = some opts ∧
      opts.APIsPath = none) := by
  refine ⟨?_, ?_, ?_, ?_⟩
  · intro args opts hcall
    obtain ⟨fs, rest, hparse⟩ := parse_ok_of_generated Provider Generate hcall
    obtain ⟨opts1, hgen, -, -, -, -, -, hapis, hctrl, -, -⟩ :=
      main_of_parse_ok Provider Generate hparse
    have hopts : opts1 = opts := Option.some.inj (hgen.symm.trans hcall)
    subst hopts
    constructor
    · by_cases h : fs.apisPath = "<empty>"
      · left; rw [hapis, if_pos h]
      · right; exact ⟨fs.apisPath, by rw [hapis, if_neg h], h⟩
    · by_cases h : fs.controllerPath = "<empty>"
      · left; rw [hctrl, if_pos h]
      · right; exact ⟨fs.controllerPath, by rw [hctrl, if_neg h], h⟩
  · intro tail
    apply main_eq_of_sameValues
    rw [Parse, Parse, parseFrom_apis_sep]
    exact sameValues_parseFrom _ _ _ rfl rfl
  · intro tail
    apply main_eq_of_sameValues
    rw [Parse, Parse, parseFrom_controller_sep]
    exact sameValues_parseFrom _ _ _ rfl rfl
  · have hp : Parse ["-apis-path", "<empty>"]
        = .ok { apisPath := "<empty>", controllerPath := "<empty>",
                actual := ["apis-path"] } [] := rfl
    obtain ⟨opts, hgen, -, -, -, -, -, hapis, -, -, -⟩ :=
      main_of_parse_ok Provider Generate hp
    exact ⟨opts, hgen, by rw [hapis]; rfl⟩

theorem sentinel_never_reaches_generate_witness :
    (main () (fun _ => none) ["-apis-path", "<empty>", "-controller-path", "ctl"]).generated
      = some { ProviderName := "wavefront", ProviderNameOriginal := "wavefront",
               ProviderData := (),
               ProviderImportPath := "github.com/vmware/terraform-provider-wavefront/wavefront",
               Version := "v1alpha1", APIsPath := none, ControllerPath := some "ctl" } ∧
    ((none = (none : Option String) ∨
        ∃ s, (none : Option String) = some s ∧ s ≠ "<empty>") ∧
     (some "ctl" = (none : Option String) ∨ ∃ s, some "ctl" = some s ∧ s ≠ "<empty>")) :=
  ⟨rfl,
    (sentinel_never_reaches_generate () (fun _ => none)).1
      ["-apis-path", "<empty>", "-controller-path", "ctl"] _ rfl⟩

/-- C9: the two path flags do not interfere.  Take two command lines, each
made of any number of uses of `-apis-path` and `-controller-path` in any order
and spelling.  If they give the same `-controller-path` input (the flag is
absent from both, or its last use has the same value in both), then the
`ControllerPath` handed to `util.Generate` is the same in both runs, whatever
uses of `-apis-path` the two command lines contain; and symmetrically the
`APIsPath` is the same in both runs when they give the same `-apis-path`
input. -/
theorem path_flags_do_not_interfere {P : Type} (Provider : P)
    (Generate : GeneratorOptions P → Option GoError) (us us1 : List FlagUse) :
    (inputOf .controller us = inputOf .controller us1 →
      ∃ opts opts1, (main Provider Generate (renderAll us)).generated = some opts ∧
        (main Provider Generate (renderAll us1)).generated = some opts1 ∧
        opts.ControllerPath = opts1.ControllerPath) ∧
    (inputOf .apis us = inputOf .apis us1 →
      ∃ opts opts1, (main Provider Generate (renderAll us)).generated = some opts ∧
        (main Provider Generate (renderAll us1)).generated = some opts1 ∧
        opts.APIsPath = opts1.APIsPath) := by
  obtain ⟨opts, hgen, hapis, hctrl⟩ := main_renderAll Provider Generate us
  obtain ⟨opts1, hgen1, hapis1, hctrl1⟩ := main_renderAll Provider Generate us1
  constructor
  · intro hin
    exact ⟨opts, opts1, hgen, hgen1, by rw [hctrl, hctrl1, hin]⟩
  · intro hin
    exact ⟨opts, opts1, hgen, hgen1, by rw [hapis, hapis1, hin]⟩

theorem path_flags_do_not_interfere_witness :
    (renderAll [⟨.controller, "c", .dash⟩] = ["-controller-path", "c"] ∧
     renderAll [⟨.controller, "c", .dash⟩, ⟨.apis, "a", .dash⟩]
        = ["-controller-path", "c", "-apis-path", "a"] ∧
     inputOf .controller [⟨.controller, "c", .dash⟩]
        = inputOf .controller [⟨.controller, "c", .dash⟩, ⟨.apis, "a", .dash⟩] ∧
     inputOf .apis [⟨.controller, "c", .dash⟩]
        ≠ inputOf .apis [⟨.controller, "c", .dash⟩, ⟨.apis, "a", .dash⟩] ∧
     ∃ opts opts1,
       (main () (fun _ => none) ["-controller-path", "c"]).generated = some opts ∧
       (main () (fun _ => none) ["-controller-path", "c", "-apis-path", "a"]).generated
          = some opts1 ∧
       opts.ControllerPath = opts1.ControllerPath) ∧
    (renderAll [⟨.apis, "a", .twoDashesEq⟩, ⟨.controller, "c1", .dash⟩]
        = ["--apis-path=a", "-controller-path", "c1"] ∧
     renderAll [⟨.controller, "c2", .dashEq⟩, ⟨.apis, "b", .dash⟩,
                ⟨.apis, "a", .twoDashes⟩]
        = ["-controller-path=c2", "-apis-path", "b", "--apis-path", "a"] ∧
     inputOf .apis [⟨.apis, "a", .twoDashesEq⟩, ⟨.controller, "c1", .dash⟩]
        = inputOf .apis [⟨.controller, "c2", .dashEq⟩, ⟨.apis, "b", .dash⟩,
                         ⟨.apis, "a", .twoDashes⟩] ∧
     ∃ opts opts1,
       (main () (fun _ => none) ["--apis-path=a", "-controller-path", "c1"]).generated
          = some opts ∧
       (main () (fun _ => none)
          ["-controller-path=c2", "-apis-path", "b", "--apis-path", "a"]).generated
          = some opts1 ∧
       opts.APIsPath = opts1.APIsPath) :=
  ⟨⟨rfl, rfl, by decide, by decide,
      (path_flags_do_not_interfere () (fun _ => none)
        [⟨.controller, "c", .dash⟩]
        [⟨.controller, "c", .dash⟩, ⟨.apis, "a", .dash⟩]).1 (by decide)⟩,
    ⟨rfl, rfl, by decide,
      (path_flags_do_not_interfere () (fun _ => none)
        [⟨.apis, "a", .twoDashesEq⟩, ⟨.controller, "c1", .dash⟩]
        [⟨.controller, "c2", .dashEq⟩, ⟨.apis, "b", .dash⟩,
          ⟨.apis, "a", .twoDashes⟩]).2 (by decide)⟩⟩

end WavefrontGen
